import Mathlib

/-!
Shallow embedding of `dp7xx/dp7xx.py`, a serial command/response driver for
a Rigol DP7xx bench power supply.

Modelling conventions:
* Python floats are modelled as rationals (`ℚ`).
* Time is modelled as rational seconds under an ideal clock: a
  `time.sleep(d)` advances the clock by exactly `d`, and the statements
  between two `time.time()` reads take no time.
* Wire traffic is modelled as lists of command strings, in issue order.
* `'%.2f' % x` is modelled as rendering `⌊100 x + 1/2⌋` hundredths
  (round half up; every input appearing in the claims is tie-free, so the
  tie convention is immaterial).
* A Python `assert` failure is modelled as `Except.error` carrying the
  assertion message; the error branch carries no wire traffic.
-/

/-- Function `clamp` from dp7xx.py: clamp a value between limits. -/
def clamp (x lo hi : ℚ) : ℚ :=
  if x < lo then lo
  else if x > hi then hi
  else x

/-- Render a natural number below 100 with two digits (the fractional part
of a `'%.2f'` rendering). -/
def pad2 (n : ℕ) : String :=
  if n < 10 then "0" ++ toString n else toString n

/-- Round a rational to the nearest integer, half up: `⌊q + 1/2⌋`,
computed on the numerator and denominator so that it kernel-reduces. -/
def qround (q : ℚ) : ℤ :=
  Int.fdiv (2 * q.num + q.den) (2 * q.den)

/-- Model of Python `'%.2f' % x`: fixed two decimal digits
(`fix2_rounds_hundredths` below checks that the rounded integer is exactly
`⌊100 x + 1/2⌋`). -/
def fix2 (x : ℚ) : String :=
  let n : ℤ := qround (Rat.divInt (100 * x.num) x.den)
  let m : ℕ := n.natAbs
  (if n < 0 then "-" else "") ++ toString (m / 100) ++ "." ++ pad2 (m % 100)

/-- Model of Python `s.rstrip(c)` for a single-character strip set:
remove all trailing occurrences of `c`. -/
def rstrip (c : Char) (s : String) : String :=
  ((s.data.reverse.dropWhile (· == c)).reverse).asString

/-- Function `minimal_float` from dp7xx.py:
`('%.2f' % x).rstrip('0').rstrip('.')`. -/
def minimal_float (x : ℚ) : String :=
  rstrip '.' (rstrip '0' (fix2 x))

/-- Constant `MINIMAL_TIME` from dp7xx.py: 50 ms, in seconds. -/
def MINIMAL_TIME : ℚ := 5/100

/-- The pacing sleep performed at the top of `dp7xx.command`: with a stored
`self.last_time` and the current clock reading `now`, the slept duration is
`delta = MINIMAL_TIME + last_time - now` when positive, else nothing; on the
first command (`last_time is None`) no wait occurs. -/
def pacer_wait (last_time : Option ℚ) (now : ℚ) : ℚ :=
  match last_time with
  | none => 0
  | some t =>
    let delta := MINIMAL_TIME + t - now
    if delta > 0 then delta else 0

/-- The value stored into `self.last_time` by `dp7xx.command`: the clock
reading taken after the pacing sleep and before the serial write. -/
def issue_time (last_time : Option ℚ) (now : ℚ) : ℚ :=
  now + pacer_wait last_time now

/-- Observable steps of one `dp7xx.command` call. -/
inductive Event where
  | sleep (d : ℚ)
  | record (t : ℚ)
  | write (cmd : String)
  | read
  deriving DecidableEq

/-- The ordered steps of one `dp7xx.command` call: optional pacing sleep,
then store `self.last_time`, then write the command bytes, then (when a
response is required) read one reply line. -/
def command_events (last_time : Option ℚ) (now : ℚ) (cmd : String) (rsp : Bool) :
    List Event :=
  let w := pacer_wait last_time now
  (if w > 0 then [Event.sleep w] else []) ++
    [Event.record (now + w), Event.write cmd] ++
    (if rsp then [Event.read] else [])

/-- Model of Python `s.split(c)` for a one-character separator. -/
def py_split (c : Char) (s : String) : List String :=
  (s.data.splitOn c).map List.asString

/-- The three identity fields extracted by `dp7xx.identify`. -/
structure IdParse where
  model : String
  sn : String
  ver : String
  deriving DecidableEq

/-- Reply handling of `dp7xx.identify`: split the reply on commas, assert
exactly 4 fields, and take fields 1, 2, 3 (0-indexed) as model, serial
number and version. -/
def identify_parse (rsp : String) : Except String IdParse :=
  let x := py_split ',' rsp
  if h : x.length = 4 then
    Except.ok ⟨x.get ⟨1, by omega⟩, x.get ⟨2, by omega⟩, x.get ⟨3, by omega⟩⟩
  else
    Except.error "bad length in identify response"

/-- Substring containment on character lists (Python's `needle in haystack`). -/
def contains_sub (needle : List Char) : List Char → Bool
  | [] => needle.isEmpty
  | c :: rest => List.isPrefixOf needle (c :: rest) || contains_sub needle rest

/-- Reply handling of `dp7xx.self_test`: `('pass', 'fail')['fail' in x]`
on the lower-cased reply. -/
def self_test_parse (rsp : String) : String :=
  if contains_sub "fail".data (rsp.data.map Char.toLower) then "fail" else "pass"

/-- Wire command sent by `dp7xx.identify`. -/
def idn_cmd : String := "*IDN?\n"

/-- Wire command sent by `dp7xx.self_test`. -/
def tst_cmd : String := "*TST?\n"

/-- Wire command sent by `dp7xx.max_voltage`. -/
def volt_max_cmd : String := ":VOLT? MAX\n"

/-- Wire command sent by `dp7xx.max_current`. -/
def curr_max_cmd : String := ":CURR? MAX\n"

/-- Wire command sent by `dp7xx.max_ovp`. -/
def ovp_max_cmd : String := ":VOLT:PROT? MAX\n"

/-- Wire command sent by `dp7xx.max_ocp`. -/
def ocp_max_cmd : String := ":CURR:PROT? MAX\n"

/-- Scripted instrument driving the connection handshake: the reply to each
connect-time query. Numeric replies are given as already-parsed rationals
(the Python code applies `float` to the raw reply text). -/
structure Instrument where
  idn_reply : String
  tst_reply : String
  volt_max_reply : ℚ
  curr_max_reply : ℚ
  ovp_max_reply : ℚ
  ocp_max_reply : ℚ

/-- The session fields populated by `dp7xx.__init__`. -/
structure Session where
  model : String
  sn : String
  ver : String
  st_result : String
  max_v : ℚ
  max_i : ℚ
  max_over_i : ℚ
  max_over_v : ℚ
  deriving DecidableEq

/-- Handshake of `dp7xx.__init__` after the port is opened, in source
statement order:
`identify()`, `self_test()`, `max_v = max_voltage()`, `max_i = max_current()`,
`max_over_i = max_ocp()`, `max_over_v = max_ovp()`.  Returns the populated
session together with the wire commands issued, in issue order; the failed
identify assertion aborts construction. -/
def dp7xx_init (ins : Instrument) : Except String (Session × List String) :=
  match identify_parse ins.idn_reply with
  | Except.error e => Except.error e
  | Except.ok idp =>
    let st := self_test_parse ins.tst_reply
    let max_v := ins.volt_max_reply
    let max_i := ins.curr_max_reply
    let max_over_i := ins.ocp_max_reply
    let max_over_v := ins.ovp_max_reply
    Except.ok ({ model := idp.model, sn := idp.sn, ver := idp.ver,
                 st_result := st, max_v := max_v, max_i := max_i,
                 max_over_i := max_over_i, max_over_v := max_over_v },
      [idn_cmd, tst_cmd, volt_max_cmd, curr_max_cmd, ocp_max_cmd, ovp_max_cmd])

/-- The handshake wire trace of `dp7xx.__init__` (empty when construction
aborts before any limits are stored). -/
def init_trace (ins : Instrument) : List String :=
  match dp7xx_init ins with
  | Except.ok (_, tr) => tr
  | Except.error _ => []

/-- A concrete healthy instrument used for witnesses. -/
def demo_instrument : Instrument :=
  { idn_reply := "RIGOL,DP712,SN123,00.01.03"
    tst_reply := "PASS"
    volt_max_reply := 30
    curr_max_reply := 5
    ovp_max_reply := 33
    ocp_max_reply := 6 }

/-- Set path of `dp7xx.voltage`: the value transmitted, after clamping. -/
def voltage_set_value (max_v v : ℚ) : ℚ := clamp v 0 max_v

/-- Set path of `dp7xx.voltage`: the wire command, formatted with
`minimal_float`. -/
def voltage_set_cmd (max_v v : ℚ) : String :=
  ":VOLT " ++ minimal_float (voltage_set_value max_v v) ++ "\n"

/-- Set path of `dp7xx.current`: the value transmitted, after clamping. -/
def current_set_value (max_i v : ℚ) : ℚ := clamp v 0 max_i

/-- Set path of `dp7xx.current`: the wire command, formatted with
`minimal_float`. -/
def current_set_cmd (max_i v : ℚ) : String :=
  ":CURR " ++ minimal_float (current_set_value max_i v) ++ "\n"

/-- Set path of `dp7xx.ovp_level`: the value transmitted, after clamping. -/
def ovp_level_set_value (max_over_v v : ℚ) : ℚ := clamp v 0 max_over_v

/-- Set path of `dp7xx.ovp_level`: the wire command, formatted with
`'%.2f'` (no stripping). -/
def ovp_level_set_cmd (max_over_v v : ℚ) : String :=
  ":VOLT:PROT " ++ fix2 (ovp_level_set_value max_over_v v) ++ "\n"

/-- Set path of `dp7xx.ocp_level`: the value transmitted, after clamping. -/
def ocp_level_set_value (max_over_i v : ℚ) : ℚ := clamp v 0 max_over_i

/-- Set path of `dp7xx.ocp_level`: the wire command, formatted with
`'%.2f'` (no stripping). -/
def ocp_level_set_cmd (max_over_i v : ℚ) : String :=
  ":CURR:PROT " ++ fix2 (ocp_level_set_value max_over_i v) ++ "\n"

/-- The loop of `dp7xx.ramp_voltage` plus the final set after it: `n`
in-loop calls to `self.voltage` starting at `v` and advancing by `dv`,
then one final call with the fully advanced running value.  Returns the
values passed to `self.voltage`, in call order. -/
def ramp_loop (v dv : ℚ) : ℕ → List ℚ
  | 0 => [v]
  | Nat.succ k => v :: ramp_loop (v + dv) dv k

/-- Function `dp7xx.ramp_voltage v0 v1 t n`: assert `t > 0.0`, assert `n >= 1`,
`delta_v = (v1 - v0)/n`, then the loop.  `Except.error` models the failed
assertion (raised before any wire traffic, so it carries no set calls). -/
def ramp_voltage (v0 v1 t : ℚ) (n : ℕ) : Except String (List ℚ) :=
  if t > 0 then
    if n ≥ 1 then
      Except.ok (ramp_loop v0 ((v1 - v0) / n) n)
    else
      Except.error "n steps must be >= 1"
  else
    Except.error "time must be > 0.0 secs"

/-- Rounding helper `qround` agrees with `⌊q + 1/2⌋`. -/
theorem qround_eq_floor (q : ℚ) : qround q = ⌊q + 1/2⌋ := by
  have hd : (q.den : ℚ) ≠ 0 := by exact_mod_cast q.den_ne_zero
  have key : q * (q.den : ℚ) = (q.num : ℚ) :=
    (eq_div_iff hd).mp (Rat.num_div_den q).symm
  have hdq : ((2 * q.den : ℕ) : ℚ) ≠ 0 := by
    push_cast
    simp [hd]
  have hq : q + 1/2 = ((2 * q.num + q.den : ℤ) : ℚ) / ((2 * q.den : ℕ) : ℚ) := by
    rw [eq_div_iff hdq]
    push_cast
    linear_combination 2 * key
  rw [qround, hq, Rat.floor_intCast_div_natCast,
    Int.fdiv_eq_ediv _ (by positivity)]
  push_cast
  ring_nf

/-- The integer rounded inside `fix2` is exactly `⌊100 x + 1/2⌋`. -/
theorem fix2_rounds_hundredths (x : ℚ) :
    qround (Rat.divInt (100 * x.num) x.den) = ⌊100 * x + 1/2⌋ := by
  rw [qround_eq_floor]
  congr 2
  rw [Rat.divInt_eq_div]
  push_cast
  rw [mul_div_assoc, Rat.num_div_den]

/-- The head of `dropWhile p l`, when it exists, does not satisfy `p`. -/
theorem head_dropWhile_false (p : Char → Bool) (l : List Char) (a : Char)
    (h : (l.dropWhile p).head? = some a) : p a = false := by
  induction l with
  | nil => simp [List.dropWhile] at h
  | cons hd tl ih =>
    by_cases hp : p hd
    · simp [List.dropWhile, hp] at h
      exact ih h
    · simp [List.dropWhile, hp] at h
      subst h
      simpa using hp

/-- Stripping with `rstrip c` leaves a string whose last character is
never `c`. -/
theorem rstrip_getLast_ne (c : Char) (s : String) :
    (rstrip c s).data.getLast? ≠ some c := by
  intro h
  unfold rstrip at h
  rw [List.asString] at h
  simp only [String.data] at h
  rw [List.getLast?_reverse] at h
  have := head_dropWhile_false (· == c) s.data.reverse c h
  simp at this

/-- C3: `minimal_float` renders with exactly 2 decimal digits, then strips
trailing zero digits, then strips a trailing decimal point; in particular
`format(5.0) = "5"`, `format(5.1) = "5.1"`, `format(5.25) = "5.25"`, and
`format(0.0) = "0"`. -/
theorem C3_minimal_float_format :
    minimal_float 5 = "5" ∧ minimal_float (51/10) = "5.1" ∧
    minimal_float (21/4) = "5.25" ∧ minimal_float 0 = "0" ∧
    (∀ x : ℚ, minimal_float x = rstrip '.' (rstrip '0' (fix2 x)) ∧
      (minimal_float x).data.getLast? ≠ some '.') := by
  refine ⟨by decide, ?_, ?_, by decide,
    fun x => ⟨rfl, rstrip_getLast_ne '.' (rstrip '0' (fix2 x))⟩⟩
  · have h : (51/10 : ℚ) = Rat.divInt 51 10 := by rw [Rat.divInt_eq_div]; norm_num
    rw [h]; decide
  · have h : (21/4 : ℚ) = Rat.divInt 21 4 := by rw [Rat.divInt_eq_div]; norm_num
    rw [h]; decide

/-- C9: for `lo ≤ hi`, `clamp x lo hi` lies in `[lo, hi]` and is the
identity on in-range inputs. -/
theorem C9_clamp_spec (x lo hi : ℚ) (h : lo ≤ hi) :
    lo ≤ clamp x lo hi ∧ clamp x lo hi ≤ hi ∧
    (lo ≤ x → x ≤ hi → clamp x lo hi = x) := by
  unfold clamp
  split_ifs with h1 h2
  · exact ⟨le_refl lo, h, fun hlo _ => absurd h1 (not_lt.mpr hlo)⟩
  · exact ⟨h, le_refl hi, fun _ hhi => absurd h2 (not_lt.mpr hhi)⟩
  · push_neg at h1 h2
    exact ⟨h1, h2, fun _ _ => rfl⟩

/-- Witness for `C9_clamp_spec` at `x = 3`, `lo = 0`, `hi = 10`. -/
theorem C9_clamp_spec_witness :
    (0:ℚ) ≤ 10 ∧
      ((0:ℚ) ≤ clamp 3 0 10 ∧ clamp 3 0 10 ≤ 10 ∧
        ((0:ℚ) ≤ 3 → (3:ℚ) ≤ 10 → clamp 3 0 10 = 3)) :=
  ⟨by norm_num, C9_clamp_spec 3 0 10 (by norm_num)⟩

/-- C2: consecutive recorded issue timestamps on one session differ by at
least `MINIMAL_TIME` (50 ms), and the very first command of a session
incurs no pacing wait. -/
theorem C2_pacing_interval :
    (∀ t now : ℚ, MINIMAL_TIME ≤ issue_time (some t) now - t) ∧
    (∀ now : ℚ, pacer_wait none now = 0 ∧ issue_time none now = now) := by
  constructor
  · intro t now
    simp only [issue_time, pacer_wait, MINIMAL_TIME]
    split_ifs with h
    · linarith
    · push_neg at h
      linarith
  · intro now
    exact ⟨rfl, by simp [issue_time, pacer_wait]⟩

/-- C10: the pacer records its timestamp before writing the command bytes,
so the 50 ms interval is measured from the start of the previous send;
whenever at least 50 ms of wall clock elapsed since the previously recorded
issue time (covering the previous write and reply read), the next command
runs with zero pacing wait: no sleep step, timestamp recorded at `now`,
then the write. -/
theorem C10_zero_wait_after_long_round_trip (last now : ℚ) (cmd : String)
    (rsp : Bool) (h : MINIMAL_TIME ≤ now - last) :
    pacer_wait (some last) now = 0 ∧
    issue_time (some last) now = now ∧
    command_events (some last) now cmd rsp =
      Event.record now :: Event.write cmd :: (if rsp then [Event.read] else []) := by
  have hw : pacer_wait (some last) now = 0 := by
    simp only [pacer_wait]
    split_ifs with hd
    · rw [MINIMAL_TIME] at h hd
      linarith
    · rfl
  refine ⟨hw, by simp [issue_time, hw], ?_⟩
  simp [command_events, hw]

/-- Witness for `C10_zero_wait_after_long_round_trip` at `last = 0`,
`now = 1`. -/
theorem C10_zero_wait_witness :
    MINIMAL_TIME ≤ (1:ℚ) - 0 ∧
      (pacer_wait (some 0) 1 = 0 ∧ issue_time (some 0) 1 = 1 ∧
        command_events (some 0) 1 ":VOLT 5\n" true =
          Event.record 1 :: Event.write ":VOLT 5\n" ::
            (if true then [Event.read] else [])) :=
  ⟨by norm_num [MINIMAL_TIME],
    C10_zero_wait_after_long_round_trip 0 1 ":VOLT 5\n" true
      (by norm_num [MINIMAL_TIME])⟩

/-- C4: voltage and current set commands format the transmitted number with
`minimal_float` (trailing zeros stripped), while the over-voltage and
over-current protection level set commands always emit exactly 2 fixed
decimal digits via `'%.2f'`: at the integral value 5 the former transmit
`"5"` where the latter transmit `"5.00"`. -/
theorem C4_format_asymmetry :
    (∀ m v : ℚ,
      voltage_set_cmd m v = ":VOLT " ++ minimal_float (clamp v 0 m) ++ "\n" ∧
      current_set_cmd m v = ":CURR " ++ minimal_float (clamp v 0 m) ++ "\n" ∧
      ovp_level_set_cmd m v = ":VOLT:PROT " ++ fix2 (clamp v 0 m) ++ "\n" ∧
      ocp_level_set_cmd m v = ":CURR:PROT " ++ fix2 (clamp v 0 m) ++ "\n") ∧
    voltage_set_cmd 30 5 = ":VOLT 5\n" ∧
    current_set_cmd 5 3 = ":CURR 3\n" ∧
    ovp_level_set_cmd 33 5 = ":VOLT:PROT 5.00\n" ∧
    ocp_level_set_cmd 6 5 = ":CURR:PROT 5.00\n" :=
  ⟨fun m v => ⟨rfl, rfl, rfl, rfl⟩, by decide, by decide, by decide, by decide⟩

/-- C5: the voltage set path transmits `clamp v 0 max_v` and the current
set path transmits `clamp v 0 max_i`: for a nonnegative limit the
transmitted value always lies in range, out-of-range requests are silently
coerced to the nearest bound, in-range requests pass through unchanged, and
a command is always produced (never an error). -/
theorem C5_set_paths_clamp (m v : ℚ) (h : 0 ≤ m) :
    voltage_set_value m v = clamp v 0 m ∧
    current_set_value m v = clamp v 0 m ∧
    0 ≤ voltage_set_value m v ∧ voltage_set_value m v ≤ m ∧
    (v < 0 → voltage_set_value m v = 0) ∧
    (m < v → voltage_set_value m v = m) ∧
    (0 ≤ v → v ≤ m → voltage_set_value m v = v) ∧
    voltage_set_cmd m v = ":VOLT " ++ minimal_float (clamp v 0 m) ++ "\n" ∧
    current_set_cmd m v = ":CURR " ++ minimal_float (clamp v 0 m) ++ "\n" := by
  obtain ⟨h1, h2, h3⟩ := C9_clamp_spec v 0 m h
  refine ⟨rfl, rfl, h1, h2, ?_, ?_, h3, rfl, rfl⟩
  · intro hv
    simp [voltage_set_value, clamp, hv]
  · intro hv
    have : ¬ v < 0 := by linarith
    simp [voltage_set_value, clamp, this, hv]

/-- Witness for `C5_set_paths_clamp` at `m = 30`, `v = 42`. -/
theorem C5_set_paths_clamp_witness :
    (0:ℚ) ≤ 30 ∧
      (voltage_set_value 30 42 = clamp 42 0 30 ∧
        current_set_value 30 42 = clamp 42 0 30 ∧
        0 ≤ voltage_set_value 30 42 ∧ voltage_set_value 30 42 ≤ 30 ∧
        ((42:ℚ) < 0 → voltage_set_value 30 42 = 0) ∧
        ((30:ℚ) < 42 → voltage_set_value 30 42 = 30) ∧
        ((0:ℚ) ≤ 42 → (42:ℚ) ≤ 30 → voltage_set_value 30 42 = 42) ∧
        voltage_set_cmd 30 42 = ":VOLT " ++ minimal_float (clamp 42 0 30) ++ "\n" ∧
        current_set_cmd 30 42 = ":CURR " ++ minimal_float (clamp 42 0 30) ++ "\n") :=
  ⟨by norm_num, C5_set_paths_clamp 30 42 (by norm_num)⟩

/-- C8: identification parsing succeeds iff the reply splits on commas into
exactly 4 fields; on success fields 1, 2, 3 (0-indexed) become model,
serial number and version; any other field count yields the fatal error and
no parsed identity. -/
theorem C8_identify_parse (rsp : String) :
    ((∃ idp, identify_parse rsp = Except.ok idp) ↔ (py_split ',' rsp).length = 4) ∧
    (∀ idp, identify_parse rsp = Except.ok idp →
      idp.model = (py_split ',' rsp).getD 1 "" ∧
      idp.sn = (py_split ',' rsp).getD 2 "" ∧
      idp.ver = (py_split ',' rsp).getD 3 "") ∧
    ((py_split ',' rsp).length ≠ 4 →
      identify_parse rsp = Except.error "bad length in identify response") ∧
    identify_parse "RIGOL,DP712,SN123,00.01.03" =
      Except.ok ⟨"DP712", "SN123", "00.01.03"⟩ ∧
    identify_parse "RIGOL,DP712,SN123" =
      Except.error "bad length in identify response" ∧
    identify_parse "A,B,C,D,E" =
      Except.error "bad length in identify response" := by
  refine ⟨?_, ?_, ?_, rfl, rfl, rfl⟩
  · unfold identify_parse
    constructor
    · intro hex
      by_contra hlen
      rw [dif_neg hlen] at hex
      obtain ⟨idp, hidp⟩ := hex
      exact Except.noConfusion hidp
    · intro hlen
      rw [dif_pos hlen]
      exact ⟨_, rfl⟩
  · intro idp hok
    unfold identify_parse at hok
    by_cases hlen : (py_split ',' rsp).length = 4
    · rw [dif_pos hlen] at hok
      have hfields := Except.ok.inj hok
      subst hfields
      refine ⟨?_, ?_, ?_⟩ <;>
        simp only [List.getD_eq_getElem?_getD, List.get_eq_getElem]
      · rw [List.getElem?_eq_getElem (show 1 < (py_split ',' rsp).length by omega),
          Option.getD_some]
      · rw [List.getElem?_eq_getElem (show 2 < (py_split ',' rsp).length by omega),
          Option.getD_some]
      · rw [List.getElem?_eq_getElem (show 3 < (py_split ',' rsp).length by omega),
          Option.getD_some]
    · rw [dif_neg hlen] at hok
      exact Except.noConfusion hok
  · intro hlen
    unfold identify_parse
    rw [dif_neg hlen]

/-- Closed form of the ramp loop: the values passed to the voltage setter
are `v + i * dv` for `i = 0, …, n`. -/
theorem ramp_loop_eq_map (n : ℕ) : ∀ v dv : ℚ,
    ramp_loop v dv n = (List.range (n+1)).map (fun i : ℕ => v + (i : ℚ) * dv) := by
  induction n with
  | zero =>
    intro v dv
    simp [ramp_loop, List.range_succ]
  | succ k ih =>
    intro v dv
    rw [ramp_loop]
    conv_rhs => rw [List.range_succ_eq_map, List.map_cons, List.map_map]
    congr 1
    · simp
    · rw [ih (v + dv) dv]
      refine List.map_congr_left ?_
      intro i hi
      simp only [Function.comp_apply]
      push_cast
      ring

/-- C6: a valid `ramp_voltage(v0, v1, t, n)` issues exactly `n + 1`
voltage-set calls: the `i`-th in-loop call (`i < n`) passes
`v0 + i * (v1 - v0)/n`, and the final call after the loop passes the fully
advanced running value `v0 + n * ((v1 - v0)/n)`, which equals `v1`; in
particular `ramp_voltage(0, 10, 1.0, 5)` issues the six values
`0, 2, 4, 6, 8, 10`. -/
theorem C6_ramp_steps (v0 v1 t : ℚ) (n : ℕ) (ht : 0 < t) (hn : 1 ≤ n) :
    ∃ l, ramp_voltage v0 v1 t n = Except.ok l ∧
      l.length = n + 1 ∧
      (∀ i : ℕ, i < n → l.getD i 0 = v0 + i * (v1 - v0) / n) ∧
      l.getD n 0 = v0 + n * ((v1 - v0) / n) ∧
      l.getD n 0 = v1 ∧
      ramp_voltage 0 10 1 5 = Except.ok [0, 2, 4, 6, 8, 10] := by
  have hn0 : (n : ℚ) ≠ 0 := by
    exact_mod_cast Nat.pos_iff_ne_zero.mp hn
  have hrv : ramp_voltage v0 v1 t n =
      Except.ok (ramp_loop v0 ((v1 - v0) / n) n) := by
    unfold ramp_voltage
    rw [if_pos ht, if_pos hn]
  have hmap := ramp_loop_eq_map n v0 ((v1 - v0) / n)
  have hlen : (ramp_loop v0 ((v1 - v0) / n) n).length = n + 1 := by
    rw [hmap]
    simp
  have hget : ∀ i : ℕ, i ≤ n →
      (ramp_loop v0 ((v1 - v0) / n) n).getD i 0 = v0 + (i : ℚ) * ((v1 - v0) / n) := by
    intro i hi
    rw [hmap, List.getD_eq_getElem _ _ (by simp; omega)]
    simp
  refine ⟨_, hrv, hlen, ?_, ?_, ?_, ?_⟩
  · intro i hi
    rw [hget i (le_of_lt hi)]
    ring
  · exact hget n le_rfl
  · rw [hget n le_rfl]
    field_simp
  · have h2 : ((10 : ℚ) - 0) / (5 : ℕ) = 2 := by norm_num
    unfold ramp_voltage
    rw [if_pos (by norm_num : (0:ℚ) < 1), if_pos (by norm_num : 5 ≥ 1), h2]
    norm_num [ramp_loop]

/-- Witness for `C6_ramp_steps` at `v0 = 0`, `v1 = 10`, `t = 1`, `n = 5`. -/
theorem C6_ramp_steps_witness :
    (0:ℚ) < 1 ∧ (1:ℕ) ≤ 5 ∧
      (∃ l, ramp_voltage 0 10 1 5 = Except.ok l ∧
        l.length = 5 + 1 ∧
        (∀ i : ℕ, i < 5 → l.getD i 0 = 0 + i * ((10:ℚ) - 0) / 5) ∧
        l.getD 5 0 = 0 + (5:ℕ) * (((10:ℚ) - 0) / 5) ∧
        l.getD 5 0 = 10 ∧
        ramp_voltage 0 10 1 5 = Except.ok [0, 2, 4, 6, 8, 10]) :=
  ⟨by norm_num, by norm_num, C6_ramp_steps 0 10 1 5 (by norm_num) (by norm_num)⟩

/-- C7: `ramp_voltage` called with non-positive duration or zero steps
fails on the assertion before any wire traffic: the result is the error and
no list of set calls is produced. -/
theorem C7_ramp_invalid_args (v0 v1 t : ℚ) (n : ℕ) (h : t ≤ 0 ∨ n < 1) :
    ∃ e, ramp_voltage v0 v1 t n = Except.error e ∧
      ∀ l, ramp_voltage v0 v1 t n ≠ Except.ok l := by
  unfold ramp_voltage
  rcases h with ht | hn
  · rw [if_neg (not_lt.mpr ht)]
    exact ⟨_, rfl, fun l hl => Except.noConfusion hl⟩
  · by_cases ht2 : t > 0
    · rw [if_pos ht2, if_neg (by omega)]
      exact ⟨_, rfl, fun l hl => Except.noConfusion hl⟩
    · rw [if_neg ht2]
      exact ⟨_, rfl, fun l hl => Except.noConfusion hl⟩

/-- Witness for `C7_ramp_invalid_args` at the two spec examples
`ramp_voltage(0, 10, 0.0, 5)` and `ramp_voltage(0, 10, 1.0, 0)`. -/
theorem C7_ramp_invalid_args_witness :
    (((0:ℚ) ≤ 0 ∨ (5:ℕ) < 1) ∧
      ∃ e, ramp_voltage 0 10 0 5 = Except.error e ∧
        ∀ l, ramp_voltage 0 10 0 5 ≠ Except.ok l) ∧
    (((1:ℚ) ≤ 0 ∨ (0:ℕ) < 1) ∧
      ∃ e, ramp_voltage 0 10 1 0 = Except.error e ∧
        ∀ l, ramp_voltage 0 10 1 0 ≠ Except.ok l) :=
  ⟨⟨Or.inl le_rfl, C7_ramp_invalid_args 0 10 0 5 (Or.inl le_rfl)⟩,
   ⟨Or.inr (by norm_num), C7_ramp_invalid_args 0 10 1 0 (Or.inr (by norm_num))⟩⟩

/-- C1 as stated is false at a concrete healthy instrument: the handshake
trace does not query max over-voltage level before max over-current level —
position 4 of the trace is the max-OCP query, not the max-OVP query. -/
theorem C1_counterexample :
    init_trace demo_instrument ≠
      [idn_cmd, tst_cmd, volt_max_cmd, curr_max_cmd, ovp_max_cmd, ocp_max_cmd] := by
  decide

/-- C1 amended: the handshake performs identify, then self-test, then max
voltage, then max current, then max over-current protection level, then max
over-voltage protection level (OCP before OVP), each limit query issued
exactly once and its reply stored in the corresponding session limit before
any user-facing operation. -/
theorem C1_init_order (ins : Instrument) (idp : IdParse)
    (h : identify_parse ins.idn_reply = Except.ok idp) :
    ∃ s : Session,
      dp7xx_init ins = Except.ok (s,
        [idn_cmd, tst_cmd, volt_max_cmd, curr_max_cmd, ocp_max_cmd, ovp_max_cmd]) ∧
      init_trace ins =
        [idn_cmd, tst_cmd, volt_max_cmd, curr_max_cmd, ocp_max_cmd, ovp_max_cmd] ∧
      s.model = idp.model ∧ s.sn = idp.sn ∧ s.ver = idp.ver ∧
      s.max_v = ins.volt_max_reply ∧ s.max_i = ins.curr_max_reply ∧
      s.max_over_i = ins.ocp_max_reply ∧ s.max_over_v = ins.ovp_max_reply ∧
      (init_trace ins).count volt_max_cmd = 1 ∧
      (init_trace ins).count curr_max_cmd = 1 ∧
      (init_trace ins).count ocp_max_cmd = 1 ∧
      (init_trace ins).count ovp_max_cmd = 1 := by
  have hinit : dp7xx_init ins = Except.ok (⟨idp.model, idp.sn, idp.ver,
      self_test_parse ins.tst_reply, ins.volt_max_reply, ins.curr_max_reply,
      ins.ocp_max_reply, ins.ovp_max_reply⟩,
      [idn_cmd, tst_cmd, volt_max_cmd, curr_max_cmd, ocp_max_cmd, ovp_max_cmd]) := by
    unfold dp7xx_init
    rw [h]
  have htr : init_trace ins =
      [idn_cmd, tst_cmd, volt_max_cmd, curr_max_cmd, ocp_max_cmd, ovp_max_cmd] := by
    unfold init_trace
    rw [hinit]
  refine ⟨_, hinit, htr, rfl, rfl, rfl, rfl, rfl, rfl, rfl, ?_, ?_, ?_, ?_⟩ <;>
    rw [htr] <;> decide

/-- Witness for `C1_init_order` at the concrete healthy instrument. -/
theorem C1_init_order_witness :
    identify_parse demo_instrument.idn_reply =
      Except.ok ⟨"DP712", "SN123", "00.01.03"⟩ ∧
    ∃ s : Session,
      dp7xx_init demo_instrument = Except.ok (s,
        [idn_cmd, tst_cmd, volt_max_cmd, curr_max_cmd, ocp_max_cmd, ovp_max_cmd]) ∧
      init_trace demo_instrument =
        [idn_cmd, tst_cmd, volt_max_cmd, curr_max_cmd, ocp_max_cmd, ovp_max_cmd] ∧
      s.model = IdParse.model ⟨"DP712", "SN123", "00.01.03"⟩ ∧
      s.sn = IdParse.sn ⟨"DP712", "SN123", "00.01.03"⟩ ∧
      s.ver = IdParse.ver ⟨"DP712", "SN123", "00.01.03"⟩ ∧
      s.max_v = demo_instrument.volt_max_reply ∧
      s.max_i = demo_instrument.curr_max_reply ∧
      s.max_over_i = demo_instrument.ocp_max_reply ∧
      s.max_over_v = demo_instrument.ovp_max_reply ∧
      (init_trace demo_instrument).count volt_max_cmd = 1 ∧
      (init_trace demo_instrument).count curr_max_cmd = 1 ∧
      (init_trace demo_instrument).count ocp_max_cmd = 1 ∧
      (init_trace demo_instrument).count ovp_max_cmd = 1 :=
  ⟨rfl, C1_init_order demo_instrument ⟨"DP712", "SN123", "00.01.03"⟩ rfl⟩

/-- Witness for `C2_pacing_interval` at `t = 0`, `now = 1/100`. -/
theorem C2_pacing_interval_witness :
    MINIMAL_TIME ≤ issue_time (some 0) (1/100) - 0 ∧
      (pacer_wait none (1/100) = 0 ∧ issue_time none (1/100) = 1/100) :=
  ⟨C2_pacing_interval.1 0 (1/100), C2_pacing_interval.2 (1/100)⟩

/-- Witness for `C3_minimal_float_format` at `x = 7`. -/
theorem C3_minimal_float_format_witness :
    minimal_float 7 = rstrip '.' (rstrip '0' (fix2 7)) ∧
      (minimal_float 7).data.getLast? ≠ some '.' :=
  C3_minimal_float_format.2.2.2.2 7

/-- Witness for `C4_format_asymmetry` at `m = 30`, `v = 7`. -/
theorem C4_format_asymmetry_witness :
    voltage_set_cmd 30 7 = ":VOLT " ++ minimal_float (clamp 7 0 30) ++ "\n" ∧
      current_set_cmd 30 7 = ":CURR " ++ minimal_float (clamp 7 0 30) ++ "\n" ∧
      ovp_level_set_cmd 30 7 = ":VOLT:PROT " ++ fix2 (clamp 7 0 30) ++ "\n" ∧
      ocp_level_set_cmd 30 7 = ":CURR:PROT " ++ fix2 (clamp 7 0 30) ++ "\n" :=
  C4_format_asymmetry.1 30 7

/-- Witness for `C8_identify_parse` at the healthy 4-field reply. -/
theorem C8_identify_parse_witness :
    IdParse.model ⟨"DP712", "SN123", "00.01.03"⟩ =
        (py_split ',' "RIGOL,DP712,SN123,00.01.03").getD 1 "" ∧
      IdParse.sn ⟨"DP712", "SN123", "00.01.03"⟩ =
        (py_split ',' "RIGOL,DP712,SN123,00.01.03").getD 2 "" ∧
      IdParse.ver ⟨"DP712", "SN123", "00.01.03"⟩ =
        (py_split ',' "RIGOL,DP712,SN123,00.01.03").getD 3 "" :=
  (C8_identify_parse "RIGOL,DP712,SN123,00.01.03").2.1
    ⟨"DP712", "SN123", "00.01.03"⟩ rfl
